import Mathlib

/-!
Shallow embedding of the UVAtlasWrapper mesh-preparation pipeline
(UVAtlasLib/Mesh.h, Mesh.cpp, UVAtlasClass.h, UVAtlasClass.cpp).

Machine integers are modelled as `Nat` with explicit reductions modulo
2^32 / 2^64 where the C++ code can wrap.  HRESULT values are modelled by
their 32-bit unsigned numeric values; `FAILED hr` is the sign-bit test.
The wrapper never performs arithmetic on vertex coordinates (it only
copies them), so the `float` coordinate scalars are modelled by `Int`.

The external DirectXMesh / UVAtlas library calls (DirectX.Clean,
DirectX.GenerateAdjacencyAndPointReps, DirectX.ComputeNormals,
UVAtlasCreate) are not part of this repository; they are modelled as
oracle parameters describing the HRESULT they return and the data they
write through the pointers they are handed.  Heap allocation with
`new (std::nothrow)` is modelled by a deterministic oracle
`alloc : Nat -> Bool` giving the outcome of a request for that many
elements.
-/

/-- Largest 32-bit unsigned value, `UINT32_MAX` in the source. -/
def UINT32_MAX : Nat := 4294967295

/-- Modulus of 64-bit `size_t` / `uint64_t` arithmetic. -/
def SIZE_T_MOD : Nat := 18446744073709551616

/-- Modulus of 32-bit `uint32_t` arithmetic. -/
def UINT32_MOD : Nat := 4294967296

/-- HRESULT `S_OK`. -/
def S_OK : Nat := 0

/-- HRESULT `E_INVALIDARG` (0x80070057). -/
def E_INVALIDARG : Nat := 0x80070057

/-- HRESULT `E_OUTOFMEMORY` (0x8007000E). -/
def E_OUTOFMEMORY : Nat := 0x8007000E

/-- HRESULT `E_UNEXPECTED` (0x8000FFFF). -/
def E_UNEXPECTED : Nat := 0x8000FFFF

/-- `HRESULT_FROM_WIN32(ERROR_ARITHMETIC_OVERFLOW)` (0x80070216). -/
def HR_ARITHMETIC_OVERFLOW : Nat := 0x80070216

/-- The Win32 `FAILED` macro: an HRESULT fails iff its sign bit is set. -/
def FAILED (hr : Nat) : Bool := decide (2147483648 ≤ hr)

/-- A raw C pointer to an array of `α`: either null or a map from offsets
to stored values. -/
def Ptr (α : Type) : Type := Option (Nat → α)

/-- Null test on a pointer. -/
def Ptr.isNull {α : Type} (p : Ptr α) : Bool :=
  match p with
  | none => true
  | some _ => false

/-- Read through a pointer.  Reading through a null pointer is undefined
behaviour in the source; it is modelled as yielding `default`, which
keeps the model total while still recording that the read is performed
unconditionally. -/
def Ptr.deref {α : Type} [Inhabited α] (p : Ptr α) (i : Nat) : α :=
  match p with
  | none => default
  | some f => f i

/-- `DirectX::XMFLOAT3`: a 3-component vector.  The wrapper only copies
these values, never computes with them, so the scalar type is `Int`. -/
structure XMFLOAT3 where
  x : Int
  y : Int
  z : Int
deriving DecidableEq, Repr, Inhabited

/-- The `Mesh` class state (Mesh.h lines 69-77): the two counts and the
five owned buffers, each `none` when the corresponding `unique_ptr` is
null. -/
structure Mesh where
  mnFaces : Nat
  mnVerts : Nat
  mIndices : Option (List Nat)
  mAttributes : Option (List Nat)
  mAdjacency : Option (List Nat)
  mPositions : Option (List XMFLOAT3)
  mNormals : Option (List XMFLOAT3)
deriving DecidableEq, Repr

/-- The default `Mesh` constructor: zero counts, all buffers null. -/
def Mesh.empty : Mesh :=
  { mnFaces := 0, mnVerts := 0, mIndices := none, mAttributes := none,
    mAdjacency := none, mPositions := none, mNormals := none }

/-- Accessor `Mesh::GetFaceCount`. -/
def Mesh.GetFaceCount (m : Mesh) : Nat := m.mnFaces

/-- Accessor `Mesh::GetVertexCount`. -/
def Mesh.GetVertexCount (m : Mesh) : Nat := m.mnVerts

/-- `Mesh::Clear` (Mesh.cpp lines 47-59). -/
def Mesh.clear (_ : Mesh) : Mesh := Mesh.empty

/-- Move assignment `Mesh::operator= (Mesh&&)` (Mesh.cpp lines 31-43)
for distinct objects: the counts are copied from the source and the
index, adjacency, position and normal buffers are swapped.  The
attribute buffer is absent from the member-wise transfer, so each side
keeps its own.  Returns (destination, source) after the move. -/
def Mesh.moveAssign (dest src : Mesh) : Mesh × Mesh :=
  ({ mnFaces := src.mnFaces, mnVerts := src.mnVerts,
     mIndices := src.mIndices, mAttributes := dest.mAttributes,
     mAdjacency := src.mAdjacency, mPositions := src.mPositions,
     mNormals := src.mNormals },
   { mnFaces := src.mnFaces, mnVerts := src.mnVerts,
     mIndices := dest.mIndices, mAttributes := src.mAttributes,
     mAdjacency := dest.mAdjacency, mPositions := dest.mPositions,
     mNormals := dest.mNormals })

/-- `Mesh::SetIndexData` (Mesh.cpp lines 64-86).  `nFaces` is a 64-bit
`size_t`; the overflow guard and the allocation size are computed in
64-bit arithmetic.  Returns (HRESULT, post-state). -/
def Mesh.setIndexData (m : Mesh) (alloc : Nat → Bool) (nFaces : Nat)
    (indices : Ptr Nat) : Nat × Mesh :=
  if nFaces = 0 ∨ indices.isNull = true then
    (E_INVALIDARG, m)
  else if UINT32_MAX ≤ nFaces * 3 % SIZE_T_MOD then
    (HR_ARITHMETIC_OVERFLOW, m)
  else
    let m1 : Mesh := { m with mnFaces := 0, mIndices := none, mAttributes := none }
    if alloc (nFaces * 3 % SIZE_T_MOD) = false then
      (E_OUTOFMEMORY, m1)
    else
      let ib : List Nat := (List.range (nFaces * 3 % SIZE_T_MOD)).map (fun i => indices.deref i)
      (S_OK, { m1 with mIndices := some ib, mnFaces := nFaces })

/-- `Mesh::SetVertexData` (Mesh.cpp lines 89-117).  The three coordinate
pointers are read without any null check.  Returns (HRESULT, post-state). -/
def Mesh.setVertexData (m : Mesh) (alloc : Nat → Bool) (xs ys zs : Ptr Int)
    (nVerts : Nat) : Nat × Mesh :=
  if nVerts = 0 then
    (E_INVALIDARG, m)
  else
    let m1 : Mesh := { m with mnVerts := 0, mPositions := none, mNormals := none }
    if alloc nVerts = false then
      (E_OUTOFMEMORY, m1)
    else
      let pos : List XMFLOAT3 :=
        (List.range nVerts).map (fun i => ⟨xs.deref i, ys.deref i, zs.deref i⟩)
      (S_OK, { m1 with mPositions := some pos, mNormals := none, mnVerts := nVerts })

/-- Outcome of the external `DirectX::Clean` call: the HRESULT, the
final contents of the index buffer it rewrites in place, the final
contents of the adjacency buffer it rewrites in place (meaningful only
when the mesh has one), and the list of vertex indices it asks to have
duplicated. -/
structure CleanResult where
  hr : Nat
  newIndices : List Nat
  newAdjacency : List Nat
  dups : List Nat
deriving DecidableEq, Repr

/-- Mesh state immediately after the in-place external `DirectX::Clean`
call inside `Mesh::Clean`: the index buffer holds the cleaner's
rewritten indices, and the adjacency buffer (when present) its
rewritten adjacency; everything else is untouched. -/
def Mesh.afterExternalClean (m : Mesh) (c : CleanResult) : Mesh :=
  { m with mIndices := some c.newIndices,
           mAdjacency := m.mAdjacency.map (fun _ => c.newAdjacency) }

/-- `Mesh::Clean` (Mesh.cpp lines 132-184).  The external cleaner result
is an oracle parameter.  When duplications are requested, a grown
position buffer (and normal buffer, when normals exist) is allocated,
the old rows are copied (`memcpy` of `mnVerts` rows) and one row per
requested duplicate is appended, reading the old buffers.  Returns
(HRESULT, post-state). -/
def Mesh.clean (m : Mesh) (alloc : Nat → Bool) (c : CleanResult) : Nat × Mesh :=
  if m.mnFaces = 0 ∨ m.mIndices = none ∨ m.mnVerts = 0 ∨ m.mPositions = none then
    (E_UNEXPECTED, m)
  else
    let m1 : Mesh := m.afterExternalClean c
    if FAILED c.hr = true then
      (c.hr, m1)
    else if c.dups = [] then
      (S_OK, m1)
    else
      let nNewVerts : Nat := m.mnVerts + c.dups.length
      if alloc nNewVerts = false then
        (E_OUTOFMEMORY, m1)
      else
        let oldPos : List XMFLOAT3 := m.mPositions.getD []
        let newPos : List XMFLOAT3 :=
          (List.range m.mnVerts).map (fun i => oldPos.getD i default)
            ++ c.dups.map (fun d => oldPos.getD d default)
        match m.mNormals with
        | none =>
            (S_OK, { m1 with mPositions := some newPos, mNormals := none,
                             mnVerts := nNewVerts })
        | some oldN =>
            if alloc nNewVerts = false then
              (E_OUTOFMEMORY, m1)
            else
              let newN : List XMFLOAT3 :=
                (List.range m.mnVerts).map (fun i => oldN.getD i default)
                  ++ c.dups.map (fun d => oldN.getD d default)
              (S_OK, { m1 with mPositions := some newPos, mNormals := some newN,
                               mnVerts := nNewVerts })

/-- Type of the external `DirectX::GenerateAdjacencyAndPointReps`
oracle: from (indices, nFaces, positions, nVerts, epsilon) to the
HRESULT and the adjacency data written into the freshly allocated
buffer.  Modelling it as a function makes it deterministic in its
inputs, which is the behaviour the external contract requires. -/
def GenAdjFn : Type :=
  List Nat → Nat → List XMFLOAT3 → Nat → Int → Nat × List Nat

/-- `Mesh::GenerateAdjacency` (Mesh.cpp lines 188-206).  The adjacency
buffer is reallocated before the external call, so on allocation
failure it is null and on an external failure it holds whatever the
external call wrote.  Returns (HRESULT, post-state). -/
def Mesh.generateAdjacency (m : Mesh) (alloc : Nat → Bool) (genAdj : GenAdjFn)
    (epsilon : Int) : Nat × Mesh :=
  if m.mnFaces = 0 ∨ m.mIndices = none ∨ m.mnVerts = 0 ∨ m.mPositions = none then
    (E_UNEXPECTED, m)
  else if UINT32_MAX ≤ m.mnFaces * 3 % SIZE_T_MOD then
    (HR_ARITHMETIC_OVERFLOW, m)
  else if alloc (m.mnFaces * 3 % SIZE_T_MOD) = false then
    (E_OUTOFMEMORY, { m with mAdjacency := none })
  else
    let r := genAdj (m.mIndices.getD []) m.mnFaces (m.mPositions.getD []) m.mnVerts epsilon
    (r.1, { m with mAdjacency := some r.2 })

/-- Type of the external `DirectX::ComputeNormals` oracle: from
(indices, nFaces, positions, nVerts, flags) to the HRESULT and the
normal data written into the freshly allocated buffer. -/
def CompNormFn : Type :=
  List Nat → Nat → List XMFLOAT3 → Nat → Nat → Nat × List XMFLOAT3

/-- `Mesh::ComputeNormals` (Mesh.cpp lines 210-220).  Returns
(HRESULT, post-state). -/
def Mesh.computeNormals (m : Mesh) (alloc : Nat → Bool) (cn : CompNormFn)
    (flags : Nat) : Nat × Mesh :=
  if m.mnFaces = 0 ∨ m.mIndices = none ∨ m.mnVerts = 0 ∨ m.mPositions = none then
    (E_UNEXPECTED, m)
  else if alloc m.mnVerts = false then
    (E_OUTOFMEMORY, { m with mNormals := none })
  else
    let r := cn (m.mIndices.getD []) m.mnFaces (m.mPositions.getD []) m.mnVerts flags
    (r.1, { m with mNormals := some r.2 })

/-- The caller-supplied `UVAtlasData` input (UVAtlasClass.h): parallel
coordinate arrays, the face count and the flat index array. -/
structure UVAtlasDataIn where
  numVertices : Nat
  xs : Ptr Int
  ys : Ptr Int
  zs : Ptr Int
  numFaces : Nat
  indices : Ptr Nat

/-- Outcome of the external `UVAtlasCreate` call: the HRESULT, the
output vertex buffer ((u, v) per vertex), the output index buffer (the
byte vector reinterpreted as 32-bit indices) and the vertex remap
array. -/
structure UVAtlasCreateResult where
  hr : Nat
  vb : List (Int × Int)
  ib : List Nat
  vertexRemap : List Nat
deriving DecidableEq, Repr

/-- The populated `UVAtlasData` result built on the success path of
`UVAtlas`. -/
structure UVAtlasDataOut where
  numVertices : Nat
  us : List Int
  vs : List Int
  numFaces : Nat
  indices : List Nat
  vertexRemap : List Nat
deriving DecidableEq, Repr

/-- Stage 1: index ingestion on the freshly constructed mesh. -/
def UVAtlas.s1 (data : UVAtlasDataIn) (alloc : Nat → Bool) : Nat × Mesh :=
  Mesh.empty.setIndexData alloc data.numFaces data.indices

/-- Stage 2: vertex ingestion on the stage-1 mesh. -/
def UVAtlas.s2 (data : UVAtlasDataIn) (alloc : Nat → Bool) : Nat × Mesh :=
  (UVAtlas.s1 data alloc).2.setVertexData alloc data.xs data.ys data.zs data.numVertices

/-- Stage 3: adjacency generation on the stage-2 mesh. -/
def UVAtlas.s3 (data : UVAtlasDataIn) (alloc : Nat → Bool) (genAdj : GenAdjFn)
    (epsilon : Int) : Nat × Mesh :=
  (UVAtlas.s2 data alloc).2.generateAdjacency alloc genAdj epsilon

/-- The exported pipeline entry point `UVAtlas` (UVAtlasClass.cpp lines
35-113).  The packing options are passed through to the external
`UVAtlasCreate` untouched, so they are absorbed into the `atlas` oracle
describing that call's outcome.  Returns (result pointer, returnCode);
the initial `returnCode = 1` is overwritten on every path.  The result
construction on the success path uses throwing `new`, modelled as
always succeeding. -/
def UVAtlas (data : UVAtlasDataIn) (alloc : Nat → Bool) (genAdj : GenAdjFn)
    (adjacencyEpsilon : Int) (atlas : UVAtlasCreateResult) :
    Option UVAtlasDataOut × Nat :=
  if FAILED (UVAtlas.s1 data alloc).1 = true then
    (none, 2)
  else if FAILED (UVAtlas.s2 data alloc).1 = true then
    (none, 3)
  else if FAILED (UVAtlas.s3 data alloc genAdj adjacencyEpsilon).1 = true then
    (none, 4)
  else if FAILED atlas.hr = true then
    (none, 5)
  else
    (some { numVertices := atlas.vb.length % UINT32_MOD,
            us := atlas.vb.map (fun p => p.1),
            vs := atlas.vb.map (fun p => p.2),
            numFaces := atlas.ib.length / 3 % UINT32_MOD,
            indices := atlas.ib,
            vertexRemap := atlas.vertexRemap }, 0)

/-- Modelled from the spec: the external mesh cleaner (`DirectX::Clean`,
not part of this repository) preserves the "only duplicate when
necessary" semantics of spec section 4.3 — when it reports zero required
duplications it leaves the in-place index and adjacency buffers
unchanged. -/
def CleanResult.noopContract (c : CleanResult) (m : Mesh) : Prop :=
  c.dups = [] →
    some c.newIndices = m.mIndices ∧
      ∀ a, m.mAdjacency = some a → c.newAdjacency = a

/-- Claim C9: move-assignment of a Mesh transfers faceCount, vertexCount,
and the index, adjacency, position, and normal buffers from the source,
but not the attribute buffer: the destination keeps the attribute buffer
it held before the move and the source keeps its own (and the source
receives the destination's old other buffers through the swaps). -/
theorem C9_moveAssign_attributes (dest src : Mesh) :
    (Mesh.moveAssign dest src).1.mnFaces = src.mnFaces ∧
    (Mesh.moveAssign dest src).1.mnVerts = src.mnVerts ∧
    (Mesh.moveAssign dest src).1.mIndices = src.mIndices ∧
    (Mesh.moveAssign dest src).1.mAdjacency = src.mAdjacency ∧
    (Mesh.moveAssign dest src).1.mPositions = src.mPositions ∧
    (Mesh.moveAssign dest src).1.mNormals = src.mNormals ∧
    (Mesh.moveAssign dest src).1.mAttributes = dest.mAttributes ∧
    (Mesh.moveAssign dest src).2.mAttributes = src.mAttributes ∧
    (Mesh.moveAssign dest src).2.mIndices = dest.mIndices ∧
    (Mesh.moveAssign dest src).2.mAdjacency = dest.mAdjacency ∧
    (Mesh.moveAssign dest src).2.mPositions = dest.mPositions ∧
    (Mesh.moveAssign dest src).2.mNormals = dest.mNormals :=
  ⟨rfl, rfl, rfl, rfl, rfl, rfl, rfl, rfl, rfl, rfl, rfl, rfl⟩

/-- Claim C6: SetVertexData fails with InvalidArgument exactly when the
vertex count is zero; on success position i equals (xs[i], ys[i], zs[i])
for every i below the vertex count, GetVertexCount returns the new
count, and the normal buffer is cleared. -/
theorem C6_setVertexData (m : Mesh) (alloc : Nat → Bool) (xs ys zs : Ptr Int)
    (nV : Nat) :
    ((m.setVertexData alloc xs ys zs nV).1 = E_INVALIDARG ↔ nV = 0) ∧
    ((m.setVertexData alloc xs ys zs nV).1 = S_OK →
      (m.setVertexData alloc xs ys zs nV).2.mPositions =
        some ((List.range nV).map (fun i => ⟨xs.deref i, ys.deref i, zs.deref i⟩)) ∧
      (m.setVertexData alloc xs ys zs nV).2.GetVertexCount = nV ∧
      (m.setVertexData alloc xs ys zs nV).2.mNormals = none) := by
  unfold Mesh.setVertexData
  split_ifs with h1 h2 <;>
    simp_all [Mesh.GetVertexCount, E_INVALIDARG, S_OK, E_OUTOFMEMORY]

/-- Witness for C6 at a concrete input: two vertices built by zipping
the three coordinate arrays, with the vertex count set and the normals
cleared. -/
theorem C6_witness :
    (Mesh.empty.setVertexData (fun _ => true) (some (fun i => (i : Int)))
        (some (fun _ => 5)) (some (fun _ => 7)) 2).2.mPositions =
      some [⟨0, 5, 7⟩, ⟨1, 5, 7⟩] ∧
    (Mesh.empty.setVertexData (fun _ => true) (some (fun i => (i : Int)))
        (some (fun _ => 5)) (some (fun _ => 7)) 2).2.GetVertexCount = 2 ∧
    (Mesh.empty.setVertexData (fun _ => true) (some (fun i => (i : Int)))
        (some (fun _ => 5)) (some (fun _ => 7)) 2).2.mNormals = none := by
  have h := (C6_setVertexData Mesh.empty (fun _ => true) (some (fun i => (i : Int)))
    (some (fun _ => 5)) (some (fun _ => 7)) 2).2 (by rfl)
  exact ⟨h.1.trans (by decide), h.2.1, h.2.2⟩

/-- Claim C10: SetVertexData rejects only a zero vertex count — for any
nonzero count it never returns InvalidArgument, even on null coordinate
pointers, and on success it has read entry i of each of xs, ys, zs for
every i below the count; in contrast SetIndexData rejects a null index
pointer with InvalidArgument. -/
theorem C10_setVertexData_no_null_check (m : Mesh) (alloc : Nat → Bool)
    (xs ys zs : Ptr Int) (nV nF : Nat) (hv : nV ≠ 0) :
    (m.setVertexData alloc xs ys zs nV).1 ≠ E_INVALIDARG ∧
    (alloc nV = true →
      (m.setVertexData alloc xs ys zs nV).1 = S_OK ∧
      (m.setVertexData alloc xs ys zs nV).2.mPositions =
        some ((List.range nV).map (fun i => ⟨xs.deref i, ys.deref i, zs.deref i⟩))) ∧
    (m.setIndexData alloc nF none).1 = E_INVALIDARG := by
  unfold Mesh.setVertexData Mesh.setIndexData
  split_ifs with h1 h2 <;>
    simp_all [Ptr.isNull, E_INVALIDARG, S_OK, E_OUTOFMEMORY]

/-- Witness for C10 at a concrete input: SetVertexData with all three
coordinate pointers null and count 2 succeeds (no null check), while
SetIndexData with a null index pointer fails with InvalidArgument. -/
theorem C10_witness :
    (Mesh.empty.setVertexData (fun _ => true) none none none 2).1 = S_OK ∧
    (Mesh.empty.setVertexData (fun _ => true) none none none 2).1 ≠ E_INVALIDARG ∧
    (Mesh.empty.setIndexData (fun _ => true) 5 none).1 = E_INVALIDARG := by
  have h := C10_setVertexData_no_null_check Mesh.empty (fun _ => true)
    none none none 2 5 (by decide)
  exact ⟨(h.2.1 rfl).1, h.1, h.2.2⟩

/-- A concrete non-null index pointer whose every entry is 0, used in the
C5 counterexample. -/
def C5.idxPtr : Ptr Nat := some (fun _ => 0)

/-- A concrete non-null index pointer holding the identity sequence,
used in the C5 witness. -/
def C5.idPtr : Ptr Nat := some (fun i => i)

/-- Counterexample to claim C5 as stated: at faceCount = 1431655765 with
a valid index pointer, faceCount * 3 = 4294967295 = UINT32_MAX is still
representable in 32-bit unsigned (it does not exceed the range), yet
SetIndexData fails with the arithmetic-overflow HRESULT, because the
source guard is `>= UINT32_MAX`, not `> UINT32_MAX`. -/
theorem C5_counterexample :
    (Mesh.empty.setIndexData (fun _ => true) 1431655765 C5.idxPtr).1 =
      HR_ARITHMETIC_OVERFLOW ∧
    (1431655765 : Nat) ≠ 0 ∧
    C5.idxPtr.isNull = false ∧
    1431655765 * 3 ≤ UINT32_MAX := by
  exact ⟨rfl, by decide, rfl, by decide⟩

/-- Claim C5 (amended): SetIndexData fails with InvalidArgument exactly
when faceCount is zero or the index pointer is null; when both are valid
it fails with Overflow exactly when faceCount * 3, computed in 64-bit
arithmetic, is at least UINT32_MAX = 2^32 - 1; otherwise, provided the
allocation succeeds, it succeeds, copies the 3 * faceCount indices into
mesh-owned storage, and afterwards GetFaceCount returns faceCount. -/
theorem C5_amended (m : Mesh) (alloc : Nat → Bool) (nF : Nat) (idx : Ptr Nat) :
    ((m.setIndexData alloc nF idx).1 = E_INVALIDARG ↔ (nF = 0 ∨ idx.isNull = true)) ∧
    (nF ≠ 0 → idx.isNull = false →
      ((m.setIndexData alloc nF idx).1 = HR_ARITHMETIC_OVERFLOW ↔
        UINT32_MAX ≤ nF * 3 % SIZE_T_MOD)) ∧
    (nF ≠ 0 → idx.isNull = false → nF * 3 % SIZE_T_MOD < UINT32_MAX →
      alloc (nF * 3 % SIZE_T_MOD) = true →
      (m.setIndexData alloc nF idx).1 = S_OK ∧
      (m.setIndexData alloc nF idx).2.mIndices =
        some ((List.range (nF * 3 % SIZE_T_MOD)).map (fun i => idx.deref i)) ∧
      (m.setIndexData alloc nF idx).2.GetFaceCount = nF) := by
  unfold Mesh.setIndexData
  split_ifs with h1 h2 h3
  · refine ⟨⟨fun _ => h1, fun _ => rfl⟩, fun hn hnull => ?_, fun hn hnull _ _ => ?_⟩
    · rcases h1 with h | h
      · exact absurd h hn
      · rw [hnull] at h; exact absurd h (by decide)
    · rcases h1 with h | h
      · exact absurd h hn
      · rw [hnull] at h; exact absurd h (by decide)
  · exact ⟨iff_of_false (by decide : HR_ARITHMETIC_OVERFLOW ≠ E_INVALIDARG) h1,
      fun _ _ => iff_of_true rfl h2,
      fun _ _ hlt _ => absurd h2 (by omega)⟩
  · exact ⟨iff_of_false (by decide : E_OUTOFMEMORY ≠ E_INVALIDARG) h1,
      fun _ _ => iff_of_false (by decide : E_OUTOFMEMORY ≠ HR_ARITHMETIC_OVERFLOW) h2,
      fun _ _ _ halloc => absurd h3 (by simp [halloc])⟩
  · exact ⟨iff_of_false (by decide : S_OK ≠ E_INVALIDARG) h1,
      fun _ _ => iff_of_false (by decide : S_OK ≠ HR_ARITHMETIC_OVERFLOW) h2,
      fun _ _ _ _ => ⟨rfl, rfl, rfl⟩⟩

/-- Witness for C5 (amended) at concrete inputs: a zero face count is
rejected as InvalidArgument, and a two-face mesh is ingested with its
six indices copied and GetFaceCount reporting 2. -/
theorem C5_witness :
    ((Mesh.empty.setIndexData (fun _ => true) 0 C5.idPtr).1 =
      E_INVALIDARG ↔ ((0 : Nat) = 0 ∨ C5.idPtr.isNull = true)) ∧
    (Mesh.empty.setIndexData (fun _ => true) 2 C5.idPtr).1 = S_OK ∧
    (Mesh.empty.setIndexData (fun _ => true) 2 C5.idPtr).2.mIndices =
      some [0, 1, 2, 3, 4, 5] ∧
    (Mesh.empty.setIndexData (fun _ => true) 2 C5.idPtr).2.GetFaceCount = 2 := by
  have h0 := (C5_amended Mesh.empty (fun _ => true) 0 C5.idPtr).1
  have h := (C5_amended Mesh.empty (fun _ => true) 2 C5.idPtr).2.2
    (by decide) rfl (by decide) rfl
  exact ⟨h0, h.1, h.2.1.trans (by decide), h.2.2⟩

/-- Auxiliary: reading a list at every offset below its length (the
`memcpy` of a whole buffer) reassembles the list. -/
theorem list_map_range_getD {α : Type} [Inhabited α] (l : List α) (n : Nat)
    (h : l.length = n) :
    (List.range n).map (fun i => l[i]?.getD default) = l := by
  subst h
  apply List.ext_getElem
  · simp
  · intro i h1 h2
    simp only [List.getElem_map, List.getElem_range, List.getElem?_eq_getElem h2,
      Option.getD_some]

/-- Claim C8: GenerateAdjacency is idempotent — running it twice in
succession with the same epsilon, allocation behaviour and external
oracle, with no intervening mutation, returns the same HRESULT and
leaves the mesh (in particular its adjacency buffer) exactly as one run
does. -/
theorem C8_generateAdjacency_idempotent (m : Mesh) (alloc : Nat → Bool)
    (genAdj : GenAdjFn) (eps : Int) :
    ((m.generateAdjacency alloc genAdj eps).2).generateAdjacency alloc genAdj eps =
      m.generateAdjacency alloc genAdj eps := by
  by_cases h1 : m.mnFaces = 0 ∨ m.mIndices = none ∨ m.mnVerts = 0 ∨ m.mPositions = none
  · simp [Mesh.generateAdjacency, h1]
  · by_cases h2 : UINT32_MAX ≤ m.mnFaces * 3 % SIZE_T_MOD
    · simp [Mesh.generateAdjacency, h1, h2]
    · by_cases h3 : alloc (m.mnFaces * 3 % SIZE_T_MOD) = false
      · simp [Mesh.generateAdjacency, h1, h2, h3]
      · simp [Mesh.generateAdjacency, h1, h2, h3]

/-- Claim C3: on a populated mesh, when the external cleaner succeeds
and the grown buffers can be allocated, Clean succeeds, the face count
is unchanged, the vertex count grows by exactly the number of requested
duplications, and each appended vertex slot holds a copy of the position
(and normal, if normals are present) of the original vertex it
duplicates. -/
theorem C3_clean_growth (m : Mesh) (alloc : Nat → Bool) (c : CleanResult)
    (ps : List XMFLOAT3)
    (hpos : m.mPositions = some ps) (hlen : ps.length = m.mnVerts)
    (hf : m.mnFaces ≠ 0) (hi : m.mIndices ≠ none) (hv : m.mnVerts ≠ 0)
    (hhr : FAILED c.hr = false)
    (hdups : ∀ d ∈ c.dups, d < m.mnVerts)
    (halloc : alloc (m.mnVerts + c.dups.length) = true)
    (hnlen : ∀ ns, m.mNormals = some ns → ns.length = m.mnVerts) :
    (m.clean alloc c).1 = S_OK ∧
    (m.clean alloc c).2.GetFaceCount = m.GetFaceCount ∧
    (m.clean alloc c).2.GetVertexCount = m.GetVertexCount + c.dups.length ∧
    (m.clean alloc c).2.mPositions =
      some (ps ++ c.dups.map (fun d => ps.getD d default)) ∧
    ∀ ns, m.mNormals = some ns →
      (m.clean alloc c).2.mNormals =
        some (ns ++ c.dups.map (fun d => ns.getD d default)) := by
  have h1 : ¬(m.mnFaces = 0 ∨ m.mIndices = none ∨ m.mnVerts = 0 ∨ m.mPositions = none) := by
    simp [hf, hi, hv, hpos]
  unfold Mesh.clean
  rw [if_neg h1, hhr]
  by_cases hd : c.dups = []
  · simp only [hd, Mesh.afterExternalClean, Mesh.GetFaceCount, Mesh.GetVertexCount]
    simp [hpos]
  · rcases hnm : m.mNormals with _ | ns
    · simp [hd, hnm, halloc, Mesh.afterExternalClean, Mesh.GetFaceCount,
        Mesh.GetVertexCount, hpos]
      exact list_map_range_getD ps m.mnVerts hlen
    · simp [hd, hnm, halloc, Mesh.afterExternalClean, Mesh.GetFaceCount,
        Mesh.GetVertexCount, hpos]
      exact ⟨list_map_range_getD ps m.mnVerts hlen,
        list_map_range_getD ns m.mnVerts (hnlen ns hnm)⟩

/-- A concrete two-vertex, one-face mesh for the C3 witness. -/
def C3.mesh : Mesh :=
  { mnFaces := 1, mnVerts := 2, mIndices := some [0, 1, 0],
    mAttributes := none, mAdjacency := none,
    mPositions := some [⟨1, 2, 3⟩, ⟨4, 5, 6⟩], mNormals := none }

/-- A concrete cleaner outcome requesting one duplication of vertex 1,
for the C3 witness. -/
def C3.c : CleanResult :=
  { hr := 0, newIndices := [0, 1, 2], newAdjacency := [], dups := [1] }

/-- Witness for C3 at a concrete input: one duplication of vertex 1
appends a copy of position 1, growing the vertex count from 2 to 3 with
the face count unchanged. -/
theorem C3_witness :
    (C3.mesh.clean (fun _ => true) C3.c).1 = S_OK ∧
    (C3.mesh.clean (fun _ => true) C3.c).2.GetFaceCount = 1 ∧
    (C3.mesh.clean (fun _ => true) C3.c).2.GetVertexCount = 3 ∧
    (C3.mesh.clean (fun _ => true) C3.c).2.mPositions =
      some [⟨1, 2, 3⟩, ⟨4, 5, 6⟩, ⟨4, 5, 6⟩] := by
  have h := C3_clean_growth C3.mesh (fun _ => true) C3.c [⟨1, 2, 3⟩, ⟨4, 5, 6⟩]
    rfl (by decide) (by decide) (by decide) (by decide) rfl (by decide) rfl
    (by intro ns hns; simp [C3.mesh] at hns)
  exact ⟨h.1, h.2.1.trans (by decide), h.2.2.1.trans (by decide),
    h.2.2.2.1.trans (by decide)⟩

/-- Claim C4: when the external cleaner succeeds, requests zero
duplications and (per its spec contract) leaves the in-place buffers
unchanged, Clean on a populated mesh succeeds and is a strict no-op:
every buffer and both counts are unchanged. -/
theorem C4_clean_noop (m : Mesh) (alloc : Nat → Bool) (c : CleanResult)
    (hf : m.mnFaces ≠ 0) (hi : m.mIndices ≠ none) (hv : m.mnVerts ≠ 0)
    (hp : m.mPositions ≠ none)
    (hhr : FAILED c.hr = false) (hd : c.dups = [])
    (hcontract : c.noopContract m) :
    m.clean alloc c = (S_OK, m) := by
  have h1 : ¬(m.mnFaces = 0 ∨ m.mIndices = none ∨ m.mnVerts = 0 ∨ m.mPositions = none) := by
    simp [hf, hi, hv, hp]
  obtain ⟨hidx, hadj⟩ := hcontract hd
  have hadj2 : m.mAdjacency.map (fun _ => c.newAdjacency) = m.mAdjacency := by
    cases hma : m.mAdjacency with
    | none => rfl
    | some a => simp [hadj a hma]
  have hm1 : m.afterExternalClean c = m := by
    unfold Mesh.afterExternalClean
    rw [hadj2, hidx]
  unfold Mesh.clean
  rw [if_neg h1, hhr]
  simp [hd, hm1]

/-- A concrete populated mesh with an adjacency buffer for the C4
witness. -/
def C4.mesh : Mesh :=
  { mnFaces := 1, mnVerts := 3, mIndices := some [0, 1, 2],
    mAttributes := none, mAdjacency := some [7, 7, 7],
    mPositions := some [⟨0, 0, 0⟩, ⟨1, 0, 0⟩, ⟨0, 1, 0⟩], mNormals := none }

/-- A concrete cleaner outcome requesting zero duplications and leaving
the buffers unchanged, for the C4 witness. -/
def C4.c : CleanResult :=
  { hr := 0, newIndices := [0, 1, 2], newAdjacency := [7, 7, 7], dups := [] }

/-- Witness for C4 at a concrete input: a clean with zero requested
duplications returns S_OK and the mesh completely unchanged. -/
theorem C4_witness :
    C4.mesh.clean (fun _ => true) C4.c = (S_OK, C4.mesh) := by
  exact C4_clean_noop C4.mesh (fun _ => true) C4.c (by decide) (by decide)
    (by decide) (by decide) rfl rfl
    (fun _ => ⟨rfl, fun a ha => by simp [C4.mesh] at ha; exact ha⟩)

/-- Observer: the adjacency data the external adjacency builder writes
for this mesh's buffers (the arguments `Mesh::GenerateAdjacency` hands
to `DirectX::GenerateAdjacencyAndPointReps`). -/
def Mesh.genAdjOutput (m : Mesh) (genAdj : GenAdjFn) (eps : Int) : List Nat :=
  (genAdj (m.mIndices.getD []) m.mnFaces (m.mPositions.getD []) m.mnVerts eps).2

/-- Observer: the normal data the external normal generator writes for
this mesh's buffers (the arguments `Mesh::ComputeNormals` hands to
`DirectX::ComputeNormals`). -/
def Mesh.compNormOutput (m : Mesh) (cn : CompNormFn) (flags : Nat) : List XMFLOAT3 :=
  (cn (m.mIndices.getD []) m.mnFaces (m.mPositions.getD []) m.mnVerts flags).2

/-- A concrete populated mesh for the C2 counterexample. -/
def C2.mesh : Mesh :=
  { mnFaces := 1, mnVerts := 3, mIndices := some [0, 1, 2],
    mAttributes := none, mAdjacency := none,
    mPositions := some [⟨0, 0, 0⟩, ⟨1, 0, 0⟩, ⟨0, 1, 0⟩], mNormals := none }

/-- A concrete cleaner outcome that rewrites face 0 to use the pending
duplicate slot 3 and requests one duplication of vertex 0, for the C2
counterexample. -/
def C2.c : CleanResult :=
  { hr := 0, newIndices := [3, 1, 2], newAdjacency := [], dups := [0] }

/-- Counterexample to claim C2 as stated: when the external cleaner has
already rewritten the index buffer in place and the subsequent vertex-
buffer growth allocation fails, Clean returns OutOfMemory with the index
buffer referencing vertex slot 3 while the vertex count is still 3 — the
mesh is neither in its pre-call state nor has a fully reset sub-buffer,
and an index references a slot at/beyond the current vertex count. -/
theorem C2_counterexample :
    (C2.mesh.clean (fun _ => false) C2.c).1 = E_OUTOFMEMORY ∧
    ∃ i ∈ ((C2.mesh.clean (fun _ => false) C2.c).2.mIndices.getD []),
      (C2.mesh.clean (fun _ => false) C2.c).2.GetVertexCount ≤ i := by
  decide

/-- Claim C2 (amended): every failing Mesh operation leaves a
well-defined state: SetIndexData and SetVertexData leave either exactly
the pre-call state or the affected sub-buffer fully reset;
GenerateAdjacency and ComputeNormals leave the pre-call state, or the
derived buffer cleared, or the derived buffer holding exactly the
external library's output with every other field at its pre-call value;
Clean on failure leaves either the pre-call state or the state after the
external cleaner's in-place rewrite, in which the counts, positions,
normals and attributes are at pre-call values but the index buffer holds
the cleaner's rewritten indices — which may reference vertex slots at or
beyond the current vertex count. -/
theorem C2_amended (m : Mesh) (alloc : Nat → Bool) (nF : Nat) (idx : Ptr Nat)
    (xs ys zs : Ptr Int) (nV : Nat) (genAdj : GenAdjFn) (eps : Int)
    (cn : CompNormFn) (flags : Nat) (c : CleanResult) :
    (FAILED (m.setIndexData alloc nF idx).1 = true →
      (m.setIndexData alloc nF idx).2 = m ∨
      (m.setIndexData alloc nF idx).2 =
        { m with mnFaces := 0, mIndices := none, mAttributes := none }) ∧
    (FAILED (m.setVertexData alloc xs ys zs nV).1 = true →
      (m.setVertexData alloc xs ys zs nV).2 = m ∨
      (m.setVertexData alloc xs ys zs nV).2 =
        { m with mnVerts := 0, mPositions := none, mNormals := none }) ∧
    (FAILED (m.generateAdjacency alloc genAdj eps).1 = true →
      (m.generateAdjacency alloc genAdj eps).2 = m ∨
      (m.generateAdjacency alloc genAdj eps).2 = { m with mAdjacency := none } ∨
      (m.generateAdjacency alloc genAdj eps).2 =
        { m with mAdjacency := some (m.genAdjOutput genAdj eps) }) ∧
    (FAILED (m.computeNormals alloc cn flags).1 = true →
      (m.computeNormals alloc cn flags).2 = m ∨
      (m.computeNormals alloc cn flags).2 = { m with mNormals := none } ∨
      (m.computeNormals alloc cn flags).2 =
        { m with mNormals := some (m.compNormOutput cn flags) }) ∧
    (FAILED (m.clean alloc c).1 = true →
      (m.clean alloc c).2 = m ∨ (m.clean alloc c).2 = m.afterExternalClean c) ∧
    (m.afterExternalClean c).GetVertexCount = m.GetVertexCount ∧
    (m.afterExternalClean c).GetFaceCount = m.GetFaceCount ∧
    (m.afterExternalClean c).mPositions = m.mPositions ∧
    (m.afterExternalClean c).mNormals = m.mNormals ∧
    (m.afterExternalClean c).mAttributes = m.mAttributes := by
  refine ⟨?_, ?_, ?_, ?_, ?_, rfl, rfl, rfl, rfl, rfl⟩
  · unfold Mesh.setIndexData
    split_ifs
    · exact fun _ => Or.inl rfl
    · exact fun _ => Or.inl rfl
    · exact fun _ => Or.inr rfl
    · exact fun h => absurd h (by decide : ¬(FAILED S_OK = true))
  · unfold Mesh.setVertexData
    split_ifs
    · exact fun _ => Or.inl rfl
    · exact fun _ => Or.inr rfl
    · exact fun h => absurd h (by decide : ¬(FAILED S_OK = true))
  · unfold Mesh.generateAdjacency
    split_ifs
    · exact fun _ => Or.inl rfl
    · exact fun _ => Or.inl rfl
    · exact fun _ => Or.inr (Or.inl rfl)
    · exact fun _ => Or.inr (Or.inr rfl)
  · unfold Mesh.computeNormals
    split_ifs
    · exact fun _ => Or.inl rfl
    · exact fun _ => Or.inr (Or.inl rfl)
    · exact fun _ => Or.inr (Or.inr rfl)
  · unfold Mesh.clean
    split_ifs with p1 p2 p3
    · exact fun _ => Or.inl rfl
    · exact fun _ => Or.inr rfl
    · exact fun h => absurd h (by decide : ¬(FAILED S_OK = true))
    · by_cases p4 : alloc (m.mnVerts + c.dups.length) = false
      · simp only [p4, if_true, eq_self_iff_true]
        exact fun _ => Or.inr trivial
      · rcases hnm : m.mNormals with _ | ns <;>
          simp only [hnm, if_neg p4] <;>
          exact fun h => absurd h (by decide : ¬(FAILED S_OK = true))

/-- Witness for C2 (amended) at a concrete input: the failing Clean of
the C2 counterexample lands in the amended disjunction (here, the
state after the external cleaner's in-place rewrite). -/
theorem C2_witness :
    (C2.mesh.clean (fun _ => false) C2.c).2 = C2.mesh ∨
    (C2.mesh.clean (fun _ => false) C2.c).2 = C2.mesh.afterExternalClean C2.c := by
  exact (C2_amended C2.mesh (fun _ => false) 0 none none none none 0
    (fun _ _ _ _ _ => (0, [])) 0 (fun _ _ _ _ _ => (0, [])) 0 C2.c).2.2.2.2.1
    (by decide)

/-- A concrete pipeline input with a zero face count (a bad-input
failure) for the C1 counterexample. -/
def C1.dataBad : UVAtlasDataIn :=
  { numVertices := 1, xs := some (fun _ => 0), ys := some (fun _ => 0),
    zs := some (fun _ => 0), numFaces := 0, indices := some (fun _ => 0) }

/-- A concrete pipeline input whose face count trips the 32-bit index
guard (an index-overflow failure) for the C1 counterexample. -/
def C1.dataOverflow : UVAtlasDataIn :=
  { numVertices := 1, xs := some (fun _ => 0), ys := some (fun _ => 0),
    zs := some (fun _ => 0), numFaces := 1431655765, indices := some (fun _ => 0) }

/-- A trivially succeeding external adjacency oracle for the C1
counterexample. -/
def C1.genAdj : GenAdjFn := fun _ _ _ _ _ => (0, [])

/-- A trivially succeeding external atlas oracle for the C1
counterexample. -/
def C1.atlas : UVAtlasCreateResult :=
  { hr := 0, vb := [], ib := [], vertexRemap := [] }

/-- Counterexample to claim C1 as stated: a bad-input failure (zero face
count, E_INVALIDARG from index ingestion) and an index-overflow failure
(the arithmetic-overflow HRESULT from index ingestion) are two distinct
failure causes among the claimed five, yet both are reported under the
same returnCode 2 — the code's returnCode distinguishes stages, not
failure kinds. -/
theorem C1_counterexample :
    (UVAtlas C1.dataBad (fun _ => true) C1.genAdj 0 C1.atlas).2 = 2 ∧
    (UVAtlas.s1 C1.dataBad (fun _ => true)).1 = E_INVALIDARG ∧
    (UVAtlas C1.dataOverflow (fun _ => true) C1.genAdj 0 C1.atlas).2 = 2 ∧
    (UVAtlas.s1 C1.dataOverflow (fun _ => true)).1 = HR_ARITHMETIC_OVERFLOW := by
  exact ⟨rfl, rfl, rfl, rfl⟩

/-- Claim C1 (amended): the numeric returnCode written by UVAtlas
identifies the failing pipeline stage, not the failure kind: 2 exactly
when index ingestion fails (whatever its cause), 3 exactly when vertex
ingestion fails after index ingestion succeeded, 4 exactly when
adjacency generation fails after both ingestions succeeded, 5 exactly
when atlas creation fails after all earlier stages succeeded, and 0
exactly when every stage succeeds; distinct stages never share a code,
but distinct failure kinds within one stage do. -/
theorem C1_amended (data : UVAtlasDataIn) (alloc : Nat → Bool) (genAdj : GenAdjFn)
    (eps : Int) (atlas : UVAtlasCreateResult) :
    ((UVAtlas data alloc genAdj eps atlas).2 = 2 ↔
      FAILED (UVAtlas.s1 data alloc).1 = true) ∧
    ((UVAtlas data alloc genAdj eps atlas).2 = 3 ↔
      (FAILED (UVAtlas.s1 data alloc).1 = false ∧
       FAILED (UVAtlas.s2 data alloc).1 = true)) ∧
    ((UVAtlas data alloc genAdj eps atlas).2 = 4 ↔
      (FAILED (UVAtlas.s1 data alloc).1 = false ∧
       FAILED (UVAtlas.s2 data alloc).1 = false ∧
       FAILED (UVAtlas.s3 data alloc genAdj eps).1 = true)) ∧
    ((UVAtlas data alloc genAdj eps atlas).2 = 5 ↔
      (FAILED (UVAtlas.s1 data alloc).1 = false ∧
       FAILED (UVAtlas.s2 data alloc).1 = false ∧
       FAILED (UVAtlas.s3 data alloc genAdj eps).1 = false ∧
       FAILED atlas.hr = true)) ∧
    ((UVAtlas data alloc genAdj eps atlas).2 = 0 ↔
      (FAILED (UVAtlas.s1 data alloc).1 = false ∧
       FAILED (UVAtlas.s2 data alloc).1 = false ∧
       FAILED (UVAtlas.s3 data alloc genAdj eps).1 = false ∧
       FAILED atlas.hr = false)) := by
  unfold UVAtlas
  cases h1 : FAILED (UVAtlas.s1 data alloc).1 <;>
  cases h2 : FAILED (UVAtlas.s2 data alloc).1 <;>
  cases h3 : FAILED (UVAtlas.s3 data alloc genAdj eps).1 <;>
  cases h4 : FAILED atlas.hr <;>
    simp [h1, h2, h3, h4]

/-- Claim C7: the pipeline entry point returns a non-null, fully
populated result exactly when every stage (index ingestion, vertex
ingestion, adjacency generation, atlas creation) succeeds, in which case
returnCode is 0; whenever any stage fails it returns null with a nonzero
returnCode, exposing no partial result. -/
theorem C7_pipeline (data : UVAtlasDataIn) (alloc : Nat → Bool) (genAdj : GenAdjFn)
    (eps : Int) (atlas : UVAtlasCreateResult) :
    ((UVAtlas data alloc genAdj eps atlas).1.isSome = true ↔
      (UVAtlas data alloc genAdj eps atlas).2 = 0) ∧
    ((UVAtlas data alloc genAdj eps atlas).2 = 0 ↔
      (FAILED (UVAtlas.s1 data alloc).1 = false ∧
       FAILED (UVAtlas.s2 data alloc).1 = false ∧
       FAILED (UVAtlas.s3 data alloc genAdj eps).1 = false ∧
       FAILED atlas.hr = false)) ∧
    ((UVAtlas data alloc genAdj eps atlas).2 ≠ 0 →
      (UVAtlas data alloc genAdj eps atlas).1 = none) ∧
    ((UVAtlas data alloc genAdj eps atlas).2 = 0 →
      (UVAtlas data alloc genAdj eps atlas).1 =
        some { numVertices := atlas.vb.length % UINT32_MOD,
               us := atlas.vb.map (fun p => p.1),
               vs := atlas.vb.map (fun p => p.2),
               numFaces := atlas.ib.length / 3 % UINT32_MOD,
               indices := atlas.ib,
               vertexRemap := atlas.vertexRemap }) := by
  unfold UVAtlas
  cases h1 : FAILED (UVAtlas.s1 data alloc).1 <;>
  cases h2 : FAILED (UVAtlas.s2 data alloc).1 <;>
  cases h3 : FAILED (UVAtlas.s3 data alloc genAdj eps).1 <;>
  cases h4 : FAILED atlas.hr <;>
    simp [h1, h2, h3, h4]

/-- A concrete valid pipeline input (one triangle, three vertices) for
the C7 witness. -/
def C7.data : UVAtlasDataIn :=
  { numVertices := 3, xs := some (fun _ => 0), ys := some (fun _ => 0),
    zs := some (fun _ => 0), numFaces := 1, indices := some (fun i => i) }

/-- A trivially succeeding external adjacency oracle for the C7
witness. -/
def C7.genAdj : GenAdjFn := fun _ _ _ _ _ => (0, [])

/-- A concrete successful external atlas outcome for the C7 witness. -/
def C7.atlas : UVAtlasCreateResult :=
  { hr := 0, vb := [(1, 2), (3, 4), (5, 6)], ib := [0, 1, 2],
    vertexRemap := [0, 1, 2] }

/-- Witness for C7 at a concrete input: a fully successful pipeline run
returns returnCode 0 and the populated result. -/
theorem C7_witness :
    (UVAtlas C7.data (fun _ => true) C7.genAdj 0 C7.atlas).2 = 0 ∧
    (UVAtlas C7.data (fun _ => true) C7.genAdj 0 C7.atlas).1 =
      some { numVertices := 3, us := [1, 3, 5], vs := [2, 4, 6],
             numFaces := 1, indices := [0, 1, 2], vertexRemap := [0, 1, 2] } := by
  have h := (C7_pipeline C7.data (fun _ => true) C7.genAdj 0 C7.atlas).2.2.2
    (by decide)
  exact ⟨by decide, h.trans (by decide)⟩
